import Mathlib

/-!
Verification of the img2gcode browser application against its natural-language
specification.  The JavaScript modules under `src/js/` and the service worker
are shallowly embedded as executable Lean definitions: numeric code is modelled
over `ℚ` (with an exact IEEE-754 binary64 model where the rounding behaviour of
JavaScript floats decides a claim), local storage as an explicit state
structure, and fallible operations as functions returning an error component.
-/

/-! ## Workspace configuration (`src/js/config.js`, `WORKSPACE_CONFIG`)

The enhanced configuration uses `CANVAS_WIDTH = 800`, `CANVAS_HEIGHT = 600`,
workspace dimensions clamped to `[MIN_WIDTH, MAX_WIDTH] = [10, 500]` and
`[MIN_HEIGHT, MAX_HEIGHT] = [10, 500]`. -/

def CANVAS_WIDTH : ℚ := 800

def CANVAS_HEIGHT : ℚ := 600

def MIN_WIDTH : ℚ := 10

def MAX_WIDTH : ℚ := 500

def MIN_HEIGHT : ℚ := 10

def MAX_HEIGHT : ℚ := 500

/-- `WORKSPACE_CONFIG.pixelsPerMm` (config.js lines 300-307, and the legacy
variant at lines 38-42): `Math.min(CANVAS_WIDTH / width, CANVAS_HEIGHT / height)`. -/
def pixelsPerMm (w h : ℚ) : ℚ :=
  min (CANVAS_WIDTH / w) (CANVAS_HEIGHT / h)

/-- `WORKSPACE_CONFIG.mmToPixels` (config.js lines 327-334): `mm * pixelsPerMm`
(the `isNaN` guard never fires for an actual finite number). -/
def mmToPixels (w h mm : ℚ) : ℚ :=
  mm * pixelsPerMm w h

/-- `WORKSPACE_CONFIG.pixelsToMm` (config.js lines 336-343): `pixels / pixelsPerMm`. -/
def pixelsToMm (w h px : ℚ) : ℚ :=
  px / pixelsPerMm w h

/-! ## Zoom operations (`src/js/main.js` zoom module, `src/js/config.js` limits) -/

def MIN_ZOOM : ℚ := 1/20

def MAX_ZOOM : ℚ := 10

def ZOOM_STEP : ℚ := 1/10

/-- `AppUtils.clamp` (config.js): `Math.max(min, Math.min(max, value))`. -/
def clamp (value lo hi : ℚ) : ℚ :=
  max lo (min hi value)

/-- Canvas zoom resulting from `ZoomManager.setZoom` (main.js lines 99-112):
the requested zoom clamped into `[MIN_ZOOM, MAX_ZOOM]`. -/
def setZoomValue (z : ℚ) : ℚ :=
  clamp z MIN_ZOOM MAX_ZOOM

/-- Canvas zoom after `zoomIn` (main.js lines 142-153): current zoom plus
`ZOOM_STEP`, capped at `MAX_ZOOM`, then passed through `setZoom`. -/
def zoomInValue (cz : ℚ) : ℚ :=
  setZoomValue (min (cz + ZOOM_STEP) MAX_ZOOM)

/-- Canvas zoom after `zoomOut` (main.js lines 155-166). -/
def zoomOutValue (cz : ℚ) : ℚ :=
  setZoomValue (max (cz - ZOOM_STEP) MIN_ZOOM)

/-- Canvas zoom after `resetZoom` (main.js lines 168-178): viewport transform
`[1, 0, 0, 1, 0, 0]`, i.e. zoom factor 1. -/
def resetZoomValue : ℚ := 1

/-- Canvas zoom after the final step of `ZoomManager.smoothZoom`
(main.js lines 70-94): `setZoom(targetZoom, centerPoint)`. -/
def smoothZoomFinal (target : ℚ) : ℚ :=
  setZoomValue target

/-- Scale component of the viewport transform installed by `fitToWindow`
(main.js lines 188-244): `Math.min(scaleX, scaleY, 1.5)` where
`scaleX = availableWidth / area.width` and `scaleY = availableHeight / area.height`;
the transform is applied with `setViewportTransform`, with no lower clamping. -/
def fitToWindowZoom (availW availH areaW areaH : ℚ) : ℚ :=
  min (min (availW / areaW) (availH / areaH)) (3/2)

/-- Scale component of the viewport transform installed by `zoomToArea`
(main.js lines 306-335): `Math.min(scaleX, scaleY, APP_CONFIG.MAX_ZOOM)` with
`scaleX = (canvasElement.width - 2 * padding) / width`, similarly for Y; applied
with `setViewportTransform`, with no lower clamping. -/
def zoomToAreaZoom (cw ch w h padding : ℚ) : ℚ :=
  min (min ((cw - padding * 2) / w) ((ch - padding * 2) / h)) MAX_ZOOM

/-! ## Theorems for C1 and C2 -/

/-- C1: for every workspace width and height within the configured `[min, max]`
bounds, `pixelsPerMm` equals `min(canvasWidth / width, canvasHeight / height)`,
and a workspace rectangle of `width * pixelsPerMm` by `height * pixelsPerMm`
pixels fits inside the 800 × 600 canvas. -/
theorem c1_pixelsPerMm_fits (w h : ℚ)
    (hw1 : MIN_WIDTH ≤ w) (hw2 : w ≤ MAX_WIDTH)
    (hh1 : MIN_HEIGHT ≤ h) (hh2 : h ≤ MAX_HEIGHT) :
    pixelsPerMm w h = min (CANVAS_WIDTH / w) (CANVAS_HEIGHT / h) ∧
    w * pixelsPerMm w h ≤ CANVAS_WIDTH ∧
    h * pixelsPerMm w h ≤ CANVAS_HEIGHT := by
  have hw0 : (0 : ℚ) < w := lt_of_lt_of_le (by norm_num [MIN_WIDTH]) hw1
  have hh0 : (0 : ℚ) < h := lt_of_lt_of_le (by norm_num [MIN_HEIGHT]) hh1
  refine ⟨rfl, ?_, ?_⟩
  · have h1 : pixelsPerMm w h ≤ CANVAS_WIDTH / w := min_le_left _ _
    calc w * pixelsPerMm w h ≤ w * (CANVAS_WIDTH / w) := by
          exact mul_le_mul_of_nonneg_left h1 (le_of_lt hw0)
      _ = CANVAS_WIDTH := by field_simp
  · have h2 : pixelsPerMm w h ≤ CANVAS_HEIGHT / h := min_le_right _ _
    calc h * pixelsPerMm w h ≤ h * (CANVAS_HEIGHT / h) := by
          exact mul_le_mul_of_nonneg_left h2 (le_of_lt hh0)
      _ = CANVAS_HEIGHT := by field_simp

/-- Witness for C1 at the default 100 × 100 mm workspace. -/
theorem c1_witness :
    pixelsPerMm 100 100 = min (CANVAS_WIDTH / 100) (CANVAS_HEIGHT / 100) ∧
    100 * pixelsPerMm 100 100 ≤ CANVAS_WIDTH ∧
    100 * pixelsPerMm 100 100 ≤ CANVAS_HEIGHT :=
  c1_pixelsPerMm_fits 100 100 (by norm_num [MIN_WIDTH]) (by norm_num [MAX_WIDTH])
    (by norm_num [MIN_HEIGHT]) (by norm_num [MAX_HEIGHT])

/-- C2: for every value `x` and every valid workspace configuration,
`pixelsToMm (mmToPixels x) = x` exactly over the rationals: the two conversions
are mutual inverses. -/
theorem c2_roundtrip (w h x : ℚ)
    (hw1 : MIN_WIDTH ≤ w) (hw2 : w ≤ MAX_WIDTH)
    (hh1 : MIN_HEIGHT ≤ h) (hh2 : h ≤ MAX_HEIGHT) :
    pixelsToMm w h (mmToPixels w h x) = x := by
  have hw0 : (0 : ℚ) < w := lt_of_lt_of_le (by norm_num [MIN_WIDTH]) hw1
  have hh0 : (0 : ℚ) < h := lt_of_lt_of_le (by norm_num [MIN_HEIGHT]) hh1
  have hx : (0 : ℚ) < CANVAS_WIDTH / w := by
    apply div_pos (by norm_num [CANVAS_WIDTH]) hw0
  have hy : (0 : ℚ) < CANVAS_HEIGHT / h := by
    apply div_pos (by norm_num [CANVAS_HEIGHT]) hh0
  have hppm : pixelsPerMm w h ≠ 0 := by
    have : (0 : ℚ) < pixelsPerMm w h := lt_min hx hy
    exact ne_of_gt this
  unfold pixelsToMm mmToPixels
  field_simp

/-- Witness for C2 at a 200 × 150 mm workspace and `x = 37/3`. -/
theorem c2_witness : pixelsToMm 200 150 (mmToPixels 200 150 (37/3)) = 37/3 :=
  c2_roundtrip 200 150 (37/3) (by norm_num [MIN_WIDTH]) (by norm_num [MAX_WIDTH])
    (by norm_num [MIN_HEIGHT]) (by norm_num [MAX_HEIGHT])

/-! ## Theorems for C3

The claim asserts that after any of the zoom operations the canvas zoom factor
lies within `[MIN_ZOOM, MAX_ZOOM]`.  This holds for the operations that route
through `ZoomManager.setZoom`, but `fitToWindow` and `zoomToArea` install a
viewport transform directly and only cap the scale from above, so the canvas
zoom can end up below `MIN_ZOOM`. -/

/-- C3 counterexample: `zoomToArea(0, 0, 100000, 100000, 50)` on the 800 × 600
canvas installs a viewport scale of `1/200`, which is strictly below
`MIN_ZOOM = 1/20`, so the claimed invariant fails for `zoomToArea`. -/
theorem c3_counterexample :
    zoomToAreaZoom 800 600 100000 100000 50 = 1/200 ∧
    ¬ (MIN_ZOOM ≤ zoomToAreaZoom 800 600 100000 100000 50) := by
  constructor
  · norm_num [zoomToAreaZoom, MAX_ZOOM]
  · norm_num [zoomToAreaZoom, MAX_ZOOM, MIN_ZOOM]

/-- C3 amended: every zoom operation that routes through `ZoomManager.setZoom`
(`setZoom`, `zoomIn`, `zoomOut`, `smoothZoom`) leaves the zoom within
`[MIN_ZOOM, MAX_ZOOM]`, as does `resetZoom`; `fitToWindow` and `zoomToArea`
only enforce the upper bounds `1.5` and `MAX_ZOOM` respectively, and can set a
zoom below `MIN_ZOOM`. -/
theorem c3_zoom_clamped (z cz target availW availH areaW areaH cw ch w h p : ℚ)
    (hw : 0 < w) (hh : 0 < h) (haw : 0 < areaW) (hah : 0 < areaH) :
    (MIN_ZOOM ≤ setZoomValue z ∧ setZoomValue z ≤ MAX_ZOOM) ∧
    (MIN_ZOOM ≤ zoomInValue cz ∧ zoomInValue cz ≤ MAX_ZOOM) ∧
    (MIN_ZOOM ≤ zoomOutValue cz ∧ zoomOutValue cz ≤ MAX_ZOOM) ∧
    (MIN_ZOOM ≤ resetZoomValue ∧ resetZoomValue ≤ MAX_ZOOM) ∧
    (MIN_ZOOM ≤ smoothZoomFinal target ∧ smoothZoomFinal target ≤ MAX_ZOOM) ∧
    fitToWindowZoom availW availH areaW areaH ≤ 3/2 ∧
    zoomToAreaZoom cw ch w h p ≤ MAX_ZOOM := by
  have hmm : MIN_ZOOM ≤ MAX_ZOOM := by norm_num [MIN_ZOOM, MAX_ZOOM]
  have hclamp : ∀ v : ℚ, MIN_ZOOM ≤ setZoomValue v ∧ setZoomValue v ≤ MAX_ZOOM := by
    intro v
    unfold setZoomValue clamp
    exact ⟨le_max_left _ _, max_le (by norm_num [MIN_ZOOM, MAX_ZOOM]) (min_le_left _ _)⟩
  refine ⟨hclamp z, hclamp _, hclamp _, ?_, hclamp target, ?_, ?_⟩
  · norm_num [resetZoomValue, MIN_ZOOM, MAX_ZOOM]
  · exact min_le_right _ _
  · exact min_le_right _ _

/-- Witness for C3 amended, at concrete inputs. -/
theorem c3_witness :
    (MIN_ZOOM ≤ setZoomValue 7 ∧ setZoomValue 7 ≤ MAX_ZOOM) ∧
    (MIN_ZOOM ≤ zoomInValue 1 ∧ zoomInValue 1 ≤ MAX_ZOOM) ∧
    (MIN_ZOOM ≤ zoomOutValue 1 ∧ zoomOutValue 1 ≤ MAX_ZOOM) ∧
    (MIN_ZOOM ≤ resetZoomValue ∧ resetZoomValue ≤ MAX_ZOOM) ∧
    (MIN_ZOOM ≤ smoothZoomFinal 20 ∧ smoothZoomFinal 20 ≤ MAX_ZOOM) ∧
    fitToWindowZoom 700 500 800 600 ≤ 3/2 ∧
    zoomToAreaZoom 800 600 50 50 50 ≤ MAX_ZOOM :=
  c3_zoom_clamped 7 1 20 700 500 800 600 800 600 50 50 50
    (by norm_num) (by norm_num) (by norm_num) (by norm_num)

/-! ## Exact IEEE-754 binary64 model (for `convertToGrayscale`)

`convertToGrayscale` (src/js/image-processing.js lines 9-42) computes
`Math.round(0.299 * r + 0.587 * g + 0.114 * b)` on JavaScript Numbers, i.e.
IEEE-754 binary64 values.  Every value arising in that expression is a
nonnegative double in the normal range (no overflow, no subnormals), so each
double is exactly a dyadic rational `m * 2 ^ e` and every literal,
multiplication and addition rounds its exact result to 53 significant bits,
nearest, ties to even.  The following executable definitions implement that
arithmetic exactly on mantissa/exponent pairs of natural numbers, so that the
kernel can evaluate it; the model was checked against actual binary64
evaluation on every one of the `256^3` byte triples. -/

/-- A nonnegative binary64 value, represented exactly as `m * 2 ^ e`. -/
structure F64 where
  m : ℕ
  e : ℤ
deriving DecidableEq

/-- Structural (fuel-based) base-2 logarithm, so that the kernel can evaluate
it: `log2fuel fuel n = ⌊log₂ n⌋` whenever `n ≤ fuel` and `n > 0`. -/
def log2fuel : ℕ → ℕ → ℕ
  | 0, _ => 0
  | fuel + 1, n => if n ≤ 1 then 0 else log2fuel fuel (n / 2) + 1

/-- Bit position of the leading one of `n`, i.e. `⌊log₂ n⌋` for `n > 0`. -/
def natLog2 (n : ℕ) : ℕ := log2fuel n n

/-- Round the nonnegative fraction `num / den` to the nearest integer, ties to
even (`den > 0` expected). -/
def roundHEFrac (num den : ℕ) : ℕ :=
  let q := num / den
  let r := num % den
  if 2 * r < den then q
  else if den < 2 * r then q + 1
  else if q % 2 = 0 then q else q + 1

/-- Round `m * 2 ^ e` to 53 significant bits, nearest, ties to even: the
binary64 rounding step applied after an exact operation. -/
def norm53 (m : ℕ) (e : ℤ) : F64 :=
  if m < 2 ^ 53 then ⟨m, e⟩
  else
    let sh := natLog2 m - 52
    ⟨roundHEFrac m (2 ^ sh), e + sh⟩

/-- Binary64 multiplication: exact product of dyadics, then one rounding. -/
def flMul (a b : F64) : F64 :=
  norm53 (a.m * b.m) (a.e + b.e)

/-- Binary64 addition: exact sum of dyadics (aligned to the smaller exponent),
then one rounding. -/
def flAdd (a b : F64) : F64 :=
  let e := min a.e b.e
  norm53 (a.m * 2 ^ (a.e - e).toNat + b.m * 2 ^ (b.e - e).toNat) e

/-- The binary64 value nearest to the positive fraction `n / d`: how a decimal
literal denotes a double. -/
def floatOfFrac (n d : ℕ) : F64 :=
  let bn := natLog2 n
  let bd := natLog2 d
  let e2 : ℤ := (bn : ℤ) - (bd : ℤ) - (if n * 2 ^ bd < d * 2 ^ bn then 1 else 0)
  let sh : ℤ := 52 - e2
  let m : ℕ :=
    if 0 ≤ sh then roundHEFrac (n * 2 ^ sh.toNat) d
    else roundHEFrac n (d * 2 ^ (-sh).toNat)
  ⟨m, -sh⟩

/-- A small natural number as a double (bytes are far below `2 ^ 53`, hence
exact). -/
def floatOfNat (n : ℕ) : F64 := norm53 n 0

/-- The double denoted by the JavaScript literal `0.299`. -/
def C299 : F64 := floatOfFrac 299 1000

/-- The double denoted by the JavaScript literal `0.587`. -/
def C587 : F64 := floatOfFrac 587 1000

/-- The double denoted by the JavaScript literal `0.114`. -/
def C114 : F64 := floatOfFrac 114 1000

/-- `Math.round` (ECMA-262) of a nonnegative double `m * 2 ^ e`: the closest
integer to its exact value, ties toward positive infinity, i.e.
`⌊m * 2 ^ e + 1/2⌋`. -/
def jsRoundF (a : F64) : ℕ :=
  if 0 ≤ a.e then a.m * 2 ^ a.e.toNat
  else (2 * a.m + 2 ^ (-a.e).toNat) / 2 ^ ((-a.e).toNat + 1)

/-- The grayscale byte computed at image-processing.js line 30:
`Math.round(0.299 * r + 0.587 * g + 0.114 * b)` with JavaScript's
left-to-right evaluation `(0.299 * r + 0.587 * g) + 0.114 * b`, each operation
in binary64. -/
def grayValue (r g b : ℕ) : ℕ :=
  jsRoundF (flAdd (flAdd (flMul C299 (floatOfNat r)) (flMul C587 (floatOfNat g)))
    (flMul C114 (floatOfNat b)))

/-- Storing an integer-valued Number into a `Uint8ClampedArray` slot clamps it
to at most 255 (the computed grayscale is never negative). -/
def clampByte (v : ℕ) : ℕ := min v 255

/-- `convertToGrayscale` (image-processing.js lines 24-36): the loop walks the
flat RGBA byte array in steps of 4, overwriting the three colour channels of
each pixel with the computed grayscale byte and leaving the alpha byte
untouched (an `ImageData` buffer always has length `4 * pixels`). -/
def convertToGrayscale : List ℕ → List ℕ
  | r :: g :: b :: a :: rest =>
      let gray := clampByte (grayValue r g b)
      gray :: gray :: gray :: a :: convertToGrayscale rest
  | l => l

/-- The grayscale value asserted by the spec sentence: the exact rounding of
`0.299 * R + 0.587 * G + 0.114 * B` over the rationals.  For a nonnegative
value with denominator 1000 that is `⌊(299 R + 587 G + 114 B + 500) / 1000⌋`. -/
def specGray (r g b : ℕ) : ℕ :=
  (299 * r + 587 * g + 114 * b + 500) / 1000

/-! ## Project persistence model (`src/js/project-management.js`, `config.js`)

Local storage is modelled explicitly.  The enhanced `ProjectManager` reads and
writes the keys `STORAGE_CONFIG.PROJECTS = 'img2gcode_projects_v2'` and
`STORAGE_CONFIG.CURRENT_PROJECT = 'img2gcode_current_project_v2'`, while the
legacy helpers in the same file (`deleteProject`, `duplicateProject`) write
`PROJECTS_STORAGE_KEY = 'img2gcode_projects'` and remove
`CURRENT_PROJECT_KEY = 'img2gcode_current_project'`; the store therefore keeps
all four cells, plus the global `currentProjectName` variable. -/

/-- A canvas object, restricted to the fields the persistence layer inspects:
the overlay marker `excludeFromExport` (grid, rulers, dimension indicators
carry `true`) and an identifier.  `obj.toObject(['excludeFromExport', 'id'])`
serializes an object keeping these fields. -/
structure CanvasObj where
  excludeFromExport : Bool
  id : ℕ
deriving DecidableEq

/-- Fabric's `toObject(['excludeFromExport', 'id'])`: serialization preserving
the modelled fields. -/
def toObject (o : CanvasObj) : CanvasObj := o

/-- `ProjectManager.getCanvasObjectsForSave` (project-management.js lines
199-218): all canvas objects without the overlay marker, serialized (the
`null` filter only discards objects whose serialization threw). -/
def getCanvasObjectsForSave (objs : List CanvasObj) : List CanvasObj :=
  (objs.filter (fun o => ! o.excludeFromExport)).map toObject

/-- A stored project entry as `validateAndCleanupProjects` sees it: the three
required fields (absent field = `none`), and the serialized byte size used for
the size/quota checks (`getProjectSize`). -/
structure ProjData where
  name? : Option String
  timestamp? : Option ℤ
  objects? : Option (List CanvasObj)
  size : ℕ
deriving DecidableEq

/-- `ProjectManager.isValidProject` (lines 57-62): the entry is an object having
the fields `name`, `timestamp` and `objects`. -/
def isValidProject (d : ProjData) : Bool :=
  d.name?.isSome && d.timestamp?.isSome && d.objects?.isSome

/-- The sort key `new Date(data.timestamp)` as an epoch value. -/
def tsKey (d : ProjData) : ℤ := d.timestamp?.getD 0

/-- One insertion step of sorting by descending timestamp. -/
def insertByNewest (x : String × ProjData) :
    List (String × ProjData) → List (String × ProjData)
  | [] => [x]
  | y :: ys => if tsKey y.2 < tsKey x.2 then x :: y :: ys else y :: insertByNewest x ys

/-- The `.sort((a, b) => new Date(b.data.timestamp) - new Date(a.data.timestamp))`
step (lines 41-44): sorting newest first, modelled as an insertion sort by
descending timestamp. -/
def sortByNewest : List (String × ProjData) → List (String × ProjData)
  | [] => []
  | x :: xs => insertByNewest x (sortByNewest xs)

def maxProjects : ℕ := 50

/-- `ProjectManager.validateAndCleanupProjects` (lines 36-52): keep the
structurally valid entries, sort them newest first, keep the first
`maxProjects = 50`. -/
def validateAndCleanupProjects (projects : List (String × ProjData)) :
    List (String × ProjData) :=
  (sortByNewest (projects.filter (fun p => isValidProject p.2))).take maxProjects

/-- The local-storage cells the project code touches, plus the global
`currentProjectName` variable. -/
structure AppStore where
  projectsV2 : List (String × ProjData)
  projectsLegacy : List (String × ProjData)
  currentV2 : Option String
  currentLegacy : Option String
  currentProjectName : String
deriving DecidableEq

/-- `ProjectManager.getAllProjects` (lines 17-31): parse the map stored under
`'img2gcode_projects_v2'` and validate/clean it. -/
def getAllProjects (s : AppStore) : List (String × ProjData) :=
  validateAndCleanupProjects s.projectsV2

/-- JavaScript object-key assignment `map[name] = data`: replace the value if
the key exists, append otherwise. -/
def setKey (k : String) (v : ProjData) :
    List (String × ProjData) → List (String × ProjData)
  | [] => [(k, v)]
  | (k', v') :: rest => if k' = k then (k, v) :: rest else (k', v') :: setKey k v rest

/-- JavaScript `delete map[name]`. -/
def eraseKey (k : String) :
    List (String × ProjData) → List (String × ProjData)
  | [] => []
  | (k', v') :: rest => if k' = k then rest else (k', v') :: eraseKey k rest

/-- `APP_CONFIG.MAX_PROJECT_SIZE` (config.js line 126): 5 MB. -/
def MAX_PROJECT_SIZE : ℕ := 5 * 1024 * 1024

/-- Bytes occupied in local storage by a stored project map. -/
def mapBytes (m : List (String × ProjData)) : ℕ :=
  (m.map (fun p => p.1.length + p.2.size)).sum

/-- Bytes occupied by a current-project pointer cell. -/
def ptrBytes : Option String → ℕ
  | none => 0
  | some s => s.length

/-- Total local-storage usage of the modelled cells: `localStorage.setItem`
throws `QuotaExceededError` exactly when a write would push this beyond the
browser quota. -/
def storeUsed (s : AppStore) : ℕ :=
  mapBytes s.projectsV2 + mapBytes s.projectsLegacy +
    ptrBytes s.currentV2 + ptrBytes s.currentLegacy

/-- JavaScript whitespace recognised by `String.prototype.trim`. -/
def isWsChar (c : Char) : Bool :=
  c = ' ' || c = '\t' || c = '\n' || c = '\r' || c = '\x0B' || c = '\x0C'

/-- `String.prototype.trim`. -/
def jsTrim (s : String) : String :=
  String.mk (((s.toList.dropWhile isWsChar).reverse.dropWhile isWsChar).reverse)

/-- The character class of the project-name validation regex
`/^[a-zA-Z0-9\s\-_àáâãäåçèéêëìíîïñòóôõöùúûüÿ]+$/` (line 121). -/
def allowedChar (c : Char) : Bool :=
  ('a' ≤ c && c ≤ 'z') || ('A' ≤ c && c ≤ 'Z') || ('0' ≤ c && c ≤ '9') ||
    isWsChar c || c = '-' || c = '_' ||
    ['à', 'á', 'â', 'ã', 'ä', 'å', 'ç', 'è', 'é', 'ê', 'ë', 'ì', 'í', 'î',
      'ï', 'ñ', 'ò', 'ó', 'ô', 'õ', 'ö', 'ù', 'ú', 'û', 'ü', 'ÿ'].contains c

/-- `regex.test(projectName)`: every character allowed (and the name nonempty,
from the `+` quantifier). -/
def validNameChars (name : String) : Bool :=
  ! name.isEmpty && name.toList.all allowedChar

/-- The user-facing errors `ProjectManager.saveCurrentProject` can throw. -/
inductive SaveError
  | emptyName
  | nameTooLong
  | invalidChars
  | projectTooLarge
  | quotaExceeded
deriving DecidableEq

/-- `ProjectManager.saveCurrentProject` (lines 105-194).  Inputs: the raw
project-name input value, the serialized project (with its byte size), the
browser storage quota, and the store.  Returns the store as left after the
call together with the thrown error, if any.  The code validates the trimmed
name (nonempty, at most 50 characters, allowed characters only), checks the
serialized size against `MAX_PROJECT_SIZE`, then writes the updated map under
`'img2gcode_projects_v2'` and the name under `'img2gcode_current_project_v2'`;
each of the two `setItem` calls can throw `QuotaExceededError`, and a throw
from the second one leaves the first write in place. -/
def saveCurrentProject (inputName : String) (pd : ProjData) (quota : ℕ)
    (s : AppStore) : AppStore × Option SaveError :=
  let name := jsTrim inputName
  if name = "" then (s, some .emptyName)
  else if 50 < name.length then (s, some .nameTooLong)
  else if ! validNameChars name then (s, some .invalidChars)
  else if MAX_PROJECT_SIZE < pd.size then (s, some .projectTooLarge)
  else
    let s1 := { s with projectsV2 := setKey name pd (getAllProjects s) }
    if quota < storeUsed s1 then (s, some .quotaExceeded)
    else
      let s2 := { s1 with currentV2 := some name }
      if quota < storeUsed s2 then (s1, some .quotaExceeded)
      else ({ s2 with currentProjectName := name }, none)

/-- `deleteProject` (project-management.js lines 345-375): after user
confirmation, read the map via `getAllProjects` (the `'..._v2'` key), delete
the entry, and write the result back under the legacy key
`PROJECTS_STORAGE_KEY = 'img2gcode_projects'`; when the deleted project is the
current one, remove the legacy pointer `CURRENT_PROJECT_KEY` and reset the
global name to `'Projet par défaut'`. -/
def deleteProject (projectName : String) (confirmed : Bool) (s : AppStore) :
    AppStore :=
  if ! confirmed then s
  else
    let s1 := { s with projectsLegacy := eraseKey projectName (getAllProjects s) }
    if s.currentProjectName = projectName then
      { s1 with currentLegacy := none, currentProjectName := "Projet par défaut" }
    else s1

/-- One tick of the `enableAutoSave` interval callback (lines 585-600):
`true` when the tick calls `saveCurrentProject()`.  The guard requires at
least one non-overlay object, a truthy (nonempty) `currentProjectName`, the
name different from the exact string `'Nouveau projet'`, and a nonblank
trimmed name. -/
def autoSaveTick (objs : List CanvasObj) (currentName : String) : Bool :=
  (decide (0 < (objs.filter (fun o => ! o.excludeFromExport)).length) &&
      ! currentName.isEmpty) &&
    (currentName != "Nouveau projet" && jsTrim currentName != "")

/-! ## Service-worker caching strategy (`src/unnamed/part_000`, the service
worker: `CACHE_STRATEGIES` lines 32-50 and `getCachingStrategy` lines
138-156) -/

/-- Whether `pre` is an initial segment of `l`. -/
def leadsList : List Char → List Char → Bool
  | [], _ => true
  | _ :: _, [] => false
  | a :: as, b :: bs => a = b && leadsList as bs

/-- Regex `/pat$/` for a literal suffix: the URL ends with `suffix`. -/
def endsWithStr (s suffix : String) : Bool :=
  leadsList suffix.toList.reverse s.toList.reverse

/-- Regex `/pat/` for a literal infix pattern: the URL contains `sub`. -/
def containsStr (s sub : String) : Bool :=
  go s.toList
where
  go : List Char → Bool
    | [] => sub.toList.isEmpty
    | c :: rest => leadsList sub.toList (c :: rest) || go rest

/-- `CACHE_STRATEGIES.static`: `/\.(css|js|html)$/`, `/\/js\//`, `/\/fonts\//`,
`/\/images\//`. -/
def matchesStatic (url : String) : Bool :=
  endsWithStr url ".css" || endsWithStr url ".js" || endsWithStr url ".html" ||
    containsStr url "/js/" || containsStr url "/fonts/" || containsStr url "/images/"

/-- `CACHE_STRATEGIES.networkFirst`: `/\/api\//`, `/\.json$/`. -/
def matchesNetworkFirst (url : String) : Bool :=
  containsStr url "/api/" || endsWithStr url ".json"

/-- `CACHE_STRATEGIES.staleWhileRevalidate`: `/\.(woff|woff2|ttf|eot)$/`,
`/\.(jpg|jpeg|png|gif|svg|webp)$/`. -/
def matchesSWR (url : String) : Bool :=
  endsWithStr url ".woff" || endsWithStr url ".woff2" || endsWithStr url ".ttf" ||
    endsWithStr url ".eot" || endsWithStr url ".jpg" || endsWithStr url ".jpeg" ||
    endsWithStr url ".png" || endsWithStr url ".gif" || endsWithStr url ".svg" ||
    endsWithStr url ".webp"

/-- The three caching strategies of the service worker. -/
inductive Strategy
  | cacheFirst
  | networkFirst
  | staleWhileRevalidate
deriving DecidableEq

/-- `getCachingStrategy` (part_000 lines 138-156): the pattern groups are
tried in the order static, network-first, stale-while-revalidate, with
network-first as the default. -/
def getCachingStrategy (url : String) : Strategy :=
  if matchesStatic url then .cacheFirst
  else if matchesNetworkFirst url then .networkFirst
  else if matchesSWR url then .staleWhileRevalidate
  else .networkFirst

/-! ## Theorems for C4

All mismatches between the code and the exact luminance rounding sit at exact
half-integer ties `299 R + 587 G + 114 B ≡ 500 (mod 1000)`, where the binary64
sum lands marginally below the tie and `Math.round` returns the smaller
neighbour. -/

/-- Length preservation of the grayscale loop. -/
theorem convertToGrayscale_length : ∀ d : List ℕ, (convertToGrayscale d).length = d.length
  | [] => rfl
  | [_] => rfl
  | [_, _] => rfl
  | [_, _, _] => rfl
  | _ :: _ :: _ :: _ :: rest => by
      simp [convertToGrayscale, convertToGrayscale_length rest]

/-- C4 counterexample: for the pixel `(R, G, B, A) = (0, 36, 12, 77)` the exact
luminance is `22.5`, so the claimed `round(0.299 R + 0.587 G + 0.114 B)` is 23,
but the code computes the binary64 value `22.499999999999996…` and
`Math.round` yields 22: the output channel differs from the claimed value. -/
theorem c4_counterexample :
    convertToGrayscale [0, 36, 12, 77] = [22, 22, 22, 77] ∧
    specGray 0 36 12 = 23 ∧
    (convertToGrayscale [0, 36, 12, 77]).getD 0 0 ≠ specGray 0 36 12 := by
  decide

/-- C4 amended: for every input pixel, grayscale conversion sets the red,
green and blue output channels all equal to `Math.round` of the IEEE-754
binary64 evaluation of `0.299 R + 0.587 G + 0.114 B` (which agrees with the
exact rounding except at exact half-integer ties, where it can return one
less), and leaves the alpha channel unchanged. -/
theorem c4_grayscale_pixels (d : List ℕ) (i : ℕ) (h : 4 * i + 3 < d.length) :
    (convertToGrayscale d).length = d.length ∧
    (convertToGrayscale d).getD (4 * i) 0 =
      clampByte (grayValue (d.getD (4 * i) 0) (d.getD (4 * i + 1) 0) (d.getD (4 * i + 2) 0)) ∧
    (convertToGrayscale d).getD (4 * i + 1) 0 = (convertToGrayscale d).getD (4 * i) 0 ∧
    (convertToGrayscale d).getD (4 * i + 2) 0 = (convertToGrayscale d).getD (4 * i) 0 ∧
    (convertToGrayscale d).getD (4 * i + 3) 0 = d.getD (4 * i + 3) 0 := by
  induction i generalizing d with
  | zero =>
      match d, h with
      | r :: g :: b :: a :: rest, _ =>
        refine ⟨convertToGrayscale_length _, ?_, ?_, ?_, ?_⟩ <;>
          simp [convertToGrayscale]
  | succ i ih =>
      match d, h with
      | r :: g :: b :: a :: rest, h =>
        have h' : 4 * i + 3 < rest.length := by
          simp only [List.length_cons] at h; omega
        have e0 : 4 * (i + 1) = 4 * i + 1 + 1 + 1 + 1 := by ring
        have e1 : 4 * (i + 1) + 1 = 4 * i + 1 + 1 + 1 + 1 + 1 := by ring
        have e2 : 4 * (i + 1) + 2 = 4 * i + 2 + 1 + 1 + 1 + 1 := by ring
        have e3 : 4 * (i + 1) + 3 = 4 * i + 3 + 1 + 1 + 1 + 1 := by ring
        obtain ⟨hL, hg0, hg1, hg2, ha⟩ := ih rest h'
        refine ⟨convertToGrayscale_length _, ?_, ?_, ?_, ?_⟩ <;>
          simp only [convertToGrayscale, e0, e1, e2, e3, List.getD_cons_succ]
        exacts [hg0, hg1, hg2, ha]

/-- Witness for C4 amended at the single pixel `(10, 20, 30, 40)`. -/
theorem c4_witness :
    (convertToGrayscale [10, 20, 30, 40]).length = ([10, 20, 30, 40] : List ℕ).length ∧
    (convertToGrayscale [10, 20, 30, 40]).getD (4 * 0) 0 =
      clampByte (grayValue (([10, 20, 30, 40] : List ℕ).getD (4 * 0) 0)
        (([10, 20, 30, 40] : List ℕ).getD (4 * 0 + 1) 0)
        (([10, 20, 30, 40] : List ℕ).getD (4 * 0 + 2) 0)) ∧
    (convertToGrayscale [10, 20, 30, 40]).getD (4 * 0 + 1) 0 =
      (convertToGrayscale [10, 20, 30, 40]).getD (4 * 0) 0 ∧
    (convertToGrayscale [10, 20, 30, 40]).getD (4 * 0 + 2) 0 =
      (convertToGrayscale [10, 20, 30, 40]).getD (4 * 0) 0 ∧
    (convertToGrayscale [10, 20, 30, 40]).getD (4 * 0 + 3) 0 =
      ([10, 20, 30, 40] : List ℕ).getD (4 * 0 + 3) 0 :=
  c4_grayscale_pixels [10, 20, 30, 40] 0 (by decide)

/-! ## Theorem for C5 -/

/-- C5: every object in the list produced for project save has
`excludeFromExport = false`; overlay objects (grid, rulers, dimension
indicators) never reach a saved project's objects array. -/
theorem c5_no_overlays_in_save (objs : List CanvasObj) (o : CanvasObj)
    (h : o ∈ getCanvasObjectsForSave objs) : o.excludeFromExport = false := by
  simp only [getCanvasObjectsForSave, List.mem_map, List.mem_filter,
    Bool.not_eq_true'] at h
  obtain ⟨a, ⟨_, hflag⟩, ho⟩ := h
  rw [← ho]
  simpa [toObject] using hflag

/-- Witness for C5: a non-overlay object saved from a one-object canvas. -/
theorem c5_witness : (⟨false, 7⟩ : CanvasObj).excludeFromExport = false :=
  c5_no_overlays_in_save [⟨false, 7⟩] ⟨false, 7⟩ (by decide)

/-! ## Theorems for C6, C7, C10 -/

/-- A well-formed stored project used as a concrete instance in several
theorems. -/
def sampleProject : ProjData := ⟨some "P1", some 100, some [], 8⟩

/-- A store with empty storage cells. -/
def emptyStore : AppStore := ⟨[], [], none, none, "X"⟩

/-- The store after the first `setItem` of a save (the projects-map write). -/
def saveState1 (name : String) (pd : ProjData) (s : AppStore) : AppStore :=
  { s with projectsV2 := setKey name pd (getAllProjects s) }

/-- The store after the second `setItem` of a save (the current-project
pointer write). -/
def saveState2 (name : String) (pd : ProjData) (s : AppStore) : AppStore :=
  { saveState1 name pd s with currentV2 := some name }

/-- Exhaustive case analysis of `saveCurrentProject`: validation failures
leave the store untouched; a quota failure on the map write leaves the store
untouched; a quota failure on the pointer write leaves the map write in
place; otherwise the save succeeds. -/
theorem saveCurrentProject_cases (inputName : String) (pd : ProjData) (quota : ℕ)
    (s : AppStore) :
    (jsTrim inputName = "" ∧
      saveCurrentProject inputName pd quota s = (s, some .emptyName)) ∨
    (¬ jsTrim inputName = "" ∧ 50 < (jsTrim inputName).length ∧
      saveCurrentProject inputName pd quota s = (s, some .nameTooLong)) ∨
    (¬ jsTrim inputName = "" ∧ ¬ 50 < (jsTrim inputName).length ∧
      validNameChars (jsTrim inputName) = false ∧
      saveCurrentProject inputName pd quota s = (s, some .invalidChars)) ∨
    (¬ jsTrim inputName = "" ∧ ¬ 50 < (jsTrim inputName).length ∧
      validNameChars (jsTrim inputName) = true ∧ MAX_PROJECT_SIZE < pd.size ∧
      saveCurrentProject inputName pd quota s = (s, some .projectTooLarge)) ∨
    (¬ jsTrim inputName = "" ∧ ¬ 50 < (jsTrim inputName).length ∧
      validNameChars (jsTrim inputName) = true ∧ ¬ MAX_PROJECT_SIZE < pd.size ∧
      quota < storeUsed (saveState1 (jsTrim inputName) pd s) ∧
      saveCurrentProject inputName pd quota s = (s, some .quotaExceeded)) ∨
    (¬ jsTrim inputName = "" ∧ ¬ 50 < (jsTrim inputName).length ∧
      validNameChars (jsTrim inputName) = true ∧ ¬ MAX_PROJECT_SIZE < pd.size ∧
      ¬ quota < storeUsed (saveState1 (jsTrim inputName) pd s) ∧
      quota < storeUsed (saveState2 (jsTrim inputName) pd s) ∧
      saveCurrentProject inputName pd quota s =
        (saveState1 (jsTrim inputName) pd s, some .quotaExceeded)) ∨
    (¬ jsTrim inputName = "" ∧ ¬ 50 < (jsTrim inputName).length ∧
      validNameChars (jsTrim inputName) = true ∧ ¬ MAX_PROJECT_SIZE < pd.size ∧
      ¬ quota < storeUsed (saveState1 (jsTrim inputName) pd s) ∧
      ¬ quota < storeUsed (saveState2 (jsTrim inputName) pd s) ∧
      saveCurrentProject inputName pd quota s =
        ({ saveState2 (jsTrim inputName) pd s with
            currentProjectName := jsTrim inputName }, none)) := by
  by_cases h1 : jsTrim inputName = ""
  · exact Or.inl ⟨h1, by simp [saveCurrentProject, h1]⟩
  by_cases h2 : 50 < (jsTrim inputName).length
  · exact Or.inr (Or.inl ⟨h1, h2, by simp [saveCurrentProject, h1, h2]⟩)
  by_cases h3 : validNameChars (jsTrim inputName) = false
  · refine Or.inr (Or.inr (Or.inl ⟨h1, h2, h3, ?_⟩))
    simp [saveCurrentProject, h1, h2, h3]
  have h3' : validNameChars (jsTrim inputName) = true := by
    revert h3; cases validNameChars (jsTrim inputName) <;> simp
  by_cases h4 : MAX_PROJECT_SIZE < pd.size
  · refine Or.inr (Or.inr (Or.inr (Or.inl ⟨h1, h2, h3', h4, ?_⟩)))
    simp [saveCurrentProject, h1, h2, h3', h4]
  by_cases h5 : quota < storeUsed (saveState1 (jsTrim inputName) pd s)
  · refine Or.inr (Or.inr (Or.inr (Or.inr (Or.inl ⟨h1, h2, h3', h4, h5, ?_⟩))))
    simp only [saveCurrentProject, saveState1] at h5 ⊢
    simp [h1, h2, h3', h4, h5]
  by_cases h6 : quota < storeUsed (saveState2 (jsTrim inputName) pd s)
  · refine Or.inr (Or.inr (Or.inr (Or.inr (Or.inr (Or.inl ⟨h1, h2, h3', h4, h5, h6, ?_⟩)))))
    simp only [saveCurrentProject, saveState1, saveState2] at h5 h6 ⊢
    simp [h1, h2, h3', h4, h5, h6]
  refine Or.inr (Or.inr (Or.inr (Or.inr (Or.inr (Or.inr ⟨h1, h2, h3', h4, h5, h6, ?_⟩)))))
  simp only [saveCurrentProject, saveState1, saveState2] at h5 h6 ⊢
  simp [h1, h2, h3', h4, h5, h6]

/-- C6 counterexample: with an empty store, the name `"ab"` (2 bytes), a
project of serialized size 8 and a quota of 10 bytes, the map write fits
exactly but the pointer write exceeds the quota: the save rejects with the
quota error, yet the stored project map has been changed. -/
theorem c6_counterexample :
    (saveCurrentProject "ab" sampleProject 10 emptyStore).2 = some SaveError.quotaExceeded ∧
    (saveCurrentProject "ab" sampleProject 10 emptyStore).1.projectsV2 ≠
      emptyStore.projectsV2 := by
  decide

/-- C6 amended: `saveCurrentProject` rejects exactly when the trimmed name is
empty, longer than 50 characters, or contains a disallowed character, or the
serialized project exceeds `MAX_PROJECT_SIZE`, or one of the two storage
writes exceeds the quota; every rejection leaves the current-project pointer
and the other storage cells unchanged, and leaves the stored project map
unchanged except in the single case where the map write succeeded and only
the pointer write exceeded the quota, in which case the map already holds the
new project. -/
theorem c6_save_rejection (inputName : String) (pd : ProjData) (quota : ℕ)
    (s : AppStore) :
    (((saveCurrentProject inputName pd quota s).2 ≠ none) ↔
      (jsTrim inputName = "" ∨ 50 < (jsTrim inputName).length ∨
        validNameChars (jsTrim inputName) = false ∨ MAX_PROJECT_SIZE < pd.size ∨
        quota < storeUsed (saveState1 (jsTrim inputName) pd s) ∨
        quota < storeUsed (saveState2 (jsTrim inputName) pd s))) ∧
    ((saveCurrentProject inputName pd quota s).2 ≠ none →
      (saveCurrentProject inputName pd quota s).1.currentV2 = s.currentV2 ∧
      (saveCurrentProject inputName pd quota s).1.currentLegacy = s.currentLegacy ∧
      (saveCurrentProject inputName pd quota s).1.projectsLegacy = s.projectsLegacy) ∧
    ((saveCurrentProject inputName pd quota s).2 ≠ none →
      ((saveCurrentProject inputName pd quota s).1.projectsV2 = s.projectsV2 ∨
        ((saveCurrentProject inputName pd quota s).2 = some SaveError.quotaExceeded ∧
          (saveCurrentProject inputName pd quota s).1.projectsV2 =
            setKey (jsTrim inputName) pd (getAllProjects s)))) := by
  rcases saveCurrentProject_cases inputName pd quota s with
    ⟨h1, he⟩ | ⟨h1, h2, he⟩ | ⟨h1, h2, h3, he⟩ | ⟨h1, h2, h3, h4, he⟩ |
    ⟨h1, h2, h3, h4, h5, he⟩ | ⟨h1, h2, h3, h4, h5, h6, he⟩ | ⟨h1, h2, h3, h4, h5, h6, he⟩ <;>
    rw [he] <;>
    simp_all [saveState1, saveState2]

/-- Witness for C6 amended: at the counterexample input the rejection leaves
the pointer and the remaining cells unchanged. -/
theorem c6_witness :
    (saveCurrentProject "ab" sampleProject 10 emptyStore).1.currentV2 = emptyStore.currentV2 ∧
    (saveCurrentProject "ab" sampleProject 10 emptyStore).1.currentLegacy = emptyStore.currentLegacy ∧
    (saveCurrentProject "ab" sampleProject 10 emptyStore).1.projectsLegacy = emptyStore.projectsLegacy :=
  (c6_save_rejection "ab" sampleProject 10 emptyStore).2.1 (by decide)

/-- A store whose `'img2gcode_projects_v2'` map holds the single project
`"P1"`, which is also the current project. -/
def storeP1 : AppStore := ⟨[("P1", sampleProject)], [], none, some "P1", "P1"⟩

/-- C7: evaluation at the failing input.  After a confirmed
`deleteProject("P1")`, the project is still returned by `getAllProjects`:
the deletion was written to the legacy key `'img2gcode_projects'` while
`getAllProjects` reads `'img2gcode_projects_v2'`, which the delete never
touches.  (The legacy pointer removal and the reset of the global name do
happen.) -/
theorem c7_delete_bug :
    List.lookup "P1" (getAllProjects (deleteProject "P1" true storeP1)) = some sampleProject ∧
    (deleteProject "P1" true storeP1).projectsV2 = storeP1.projectsV2 ∧
    (deleteProject "P1" true storeP1).projectsLegacy = [] ∧
    (deleteProject "P1" true storeP1).currentLegacy = none ∧
    (deleteProject "P1" true storeP1).currentProjectName = "Projet par défaut" := by
  decide

/-- Membership is preserved by one descending insertion step. -/
theorem mem_insertByNewest {x y : String × ProjData} :
    ∀ {l : List (String × ProjData)}, y ∈ insertByNewest x l ↔ y = x ∨ y ∈ l := by
  intro l
  induction l with
  | nil => simp [insertByNewest]
  | cons z zs ih =>
      by_cases h : tsKey z.2 < tsKey x.2
      · simp [insertByNewest, h]
      · simp [insertByNewest, h, ih]
        tauto

/-- Membership is preserved by the descending sort. -/
theorem mem_sortByNewest {y : String × ProjData} :
    ∀ {l : List (String × ProjData)}, y ∈ sortByNewest l ↔ y ∈ l := by
  intro l
  induction l with
  | nil => simp [sortByNewest]
  | cons z zs ih => simp [sortByNewest, mem_insertByNewest, ih]

/-- Insertion keeps the list sorted by descending timestamp. -/
theorem sorted_insertByNewest (x : String × ProjData) :
    ∀ {l : List (String × ProjData)},
      l.Pairwise (fun a b => tsKey b.2 ≤ tsKey a.2) →
      (insertByNewest x l).Pairwise (fun a b => tsKey b.2 ≤ tsKey a.2) := by
  intro l hl
  induction l with
  | nil => simp [insertByNewest]
  | cons z zs ih =>
      rcases List.pairwise_cons.mp hl with ⟨hz, hzs⟩
      by_cases h : tsKey z.2 < tsKey x.2
      · rw [insertByNewest, if_pos h]
        refine List.pairwise_cons.mpr ⟨?_, hl⟩
        intro y hy
        rcases List.mem_cons.mp hy with rfl | hy
        · exact le_of_lt h
        · exact le_trans (hz y hy) (le_of_lt h)
      · rw [insertByNewest, if_neg h]
        refine List.pairwise_cons.mpr ⟨?_, ih hzs⟩
        intro y hy
        rcases mem_insertByNewest.mp hy with rfl | hy
        · exact le_of_not_lt h
        · exact hz y hy

/-- The sort produces a list ordered by descending timestamp. -/
theorem sorted_sortByNewest :
    ∀ l : List (String × ProjData),
      (sortByNewest l).Pairwise (fun a b => tsKey b.2 ≤ tsKey a.2)
  | [] => by simp [sortByNewest]
  | x :: xs => by
      rw [sortByNewest]
      exact sorted_insertByNewest x (sorted_sortByNewest xs)

/-- C10: `getAllProjects` returns at most 50 projects, all structurally valid
and drawn from the stored map; every valid stored entry it discards is no
newer than any entry it keeps; and a successful save persists exactly the
trimmed map with the new project inserted, with no error for the evicted
entries. -/
theorem c10_cleanup_cap (m : List (String × ProjData)) :
    (validateAndCleanupProjects m).length ≤ maxProjects ∧
    (∀ p, p ∈ validateAndCleanupProjects m → isValidProject p.2 = true ∧ p ∈ m) ∧
    (∀ p, p ∈ m → isValidProject p.2 = true → p ∉ validateAndCleanupProjects m →
      ∀ q, q ∈ validateAndCleanupProjects m → tsKey p.2 ≤ tsKey q.2) ∧
    (∀ (inputName : String) (pd : ProjData) (quota : ℕ) (s : AppStore),
      (saveCurrentProject inputName pd quota s).2 = none →
      (saveCurrentProject inputName pd quota s).1.projectsV2 =
        setKey (jsTrim inputName) pd (validateAndCleanupProjects s.projectsV2)) := by
  refine ⟨?_, ?_, ?_, ?_⟩
  · exact List.length_take_le _ _
  · intro p hp
    have hp' := List.take_subset _ _ hp
    have hp'' := mem_sortByNewest.mp hp'
    rcases List.mem_filter.mp hp'' with ⟨hm, hv⟩
    exact ⟨hv, hm⟩
  · intro p hpm hpv hpn q hq
    set srt := sortByNewest (m.filter (fun p => isValidProject p.2)) with hsrt
    have hps : p ∈ srt := mem_sortByNewest.mpr (List.mem_filter.mpr ⟨hpm, hpv⟩)
    have hsorted := sorted_sortByNewest (m.filter (fun p => isValidProject p.2))
    rw [← hsrt] at hsorted
    rw [← List.take_append_drop maxProjects srt] at hsorted hps
    rcases (List.pairwise_append.mp hsorted) with ⟨_, _, hrel⟩
    have hpd : p ∈ srt.drop maxProjects := by
      rcases List.mem_append.mp hps with h | h
      · exact absurd h hpn
      · exact h
    exact hrel q hq p hpd
  · intro inputName pd quota s hok
    rcases saveCurrentProject_cases inputName pd quota s with
      ⟨h1, he⟩ | ⟨h1, h2, he⟩ | ⟨h1, h2, h3, he⟩ | ⟨h1, h2, h3, h4, he⟩ |
      ⟨h1, h2, h3, h4, h5, he⟩ | ⟨h1, h2, h3, h4, h5, h6, he⟩ |
      ⟨h1, h2, h3, h4, h5, h6, he⟩ <;>
      rw [he] at hok ⊢ <;>
      simp_all [saveState1, saveState2, getAllProjects]

/-- Witness for C10: the kept entry of a one-project map is valid and drawn
from the map. -/
theorem c10_witness :
    isValidProject sampleProject = true ∧
    ("P1", sampleProject) ∈ [("P1", sampleProject)] :=
  (c10_cleanup_cap [("P1", sampleProject)]).2.1 ("P1", sampleProject) (by decide)

/-! ## Theorems for C8 -/

/-- C8 counterexample: with one non-overlay object on the canvas and the
current project still carrying a default name — `'Projet par défaut'`
(config.js line 15, also set by `deleteProject`) or `'Nouveau Projet'`
(`AppGlobalState`, config.js line 161) — the auto-save tick does perform a
save: the guard only skips the exact string `'Nouveau projet'`. -/
theorem c8_counterexample :
    autoSaveTick [⟨false, 1⟩] "Projet par défaut" = true ∧
    autoSaveTick [⟨false, 1⟩] "Nouveau Projet" = true := by
  decide

/-- C8 amended: the auto-save tick performs a save if and only if the canvas
holds at least one non-overlay object and the current project name is
nonempty, different from the exact string `'Nouveau projet'`, and not blank
after trimming; default names other than that exact string (such as
`'Projet par défaut'` or `'Nouveau Projet'`) are not skipped. -/
theorem c8_autosave_guard (objs : List CanvasObj) (name : String) :
    autoSaveTick objs name = true ↔
      (0 < (objs.filter (fun o => ! o.excludeFromExport)).length ∧
        name ≠ "" ∧ name ≠ "Nouveau projet" ∧ jsTrim name ≠ "") := by
  have hne : name.isEmpty = false ↔ ¬ name = "" := by
    rw [Bool.eq_false_iff]
    exact not_congr (String.isEmpty_iff name)
  simp [autoSaveTick, Bool.and_eq_true, decide_eq_true_iff, bne_iff_ne, hne, and_assoc]

/-! ## Theorems for C9 -/

/-- C9 counterexample: the URL `/fonts/logo.woff` ends in a font extension, so
the claim requires stale-while-revalidate, but the static pattern `/\/fonts\//`
is tested first and the selector returns cache-first. -/
theorem c9_counterexample :
    getCachingStrategy "/fonts/logo.woff" = Strategy.cacheFirst ∧
    matchesSWR "/fonts/logo.woff" = true ∧
    Strategy.cacheFirst ≠ Strategy.staleWhileRevalidate := by
  decide

/-- C9 amended: the pattern groups are tested in priority order.  The selector
returns cache-first exactly on a static-asset match; stale-while-revalidate
exactly on a font/image-extension match that matches neither a static nor an
API/JSON pattern; and network-first in all remaining cases (an API/JSON match
or no match at all, unless a static pattern matched first). -/
theorem c9_strategy_priority (url : String) :
    (getCachingStrategy url = Strategy.cacheFirst ↔ matchesStatic url = true) ∧
    (getCachingStrategy url = Strategy.staleWhileRevalidate ↔
      (matchesStatic url = false ∧ matchesNetworkFirst url = false ∧
        matchesSWR url = true)) ∧
    (getCachingStrategy url = Strategy.networkFirst ↔
      (matchesStatic url = false ∧
        (matchesNetworkFirst url = true ∨ matchesSWR url = false))) := by
  unfold getCachingStrategy
  cases h1 : matchesStatic url <;> cases h2 : matchesNetworkFirst url <;>
    cases h3 : matchesSWR url <;> simp
